import Mathlib

/-!
Verification of the discovery → filter → rank pipeline of the idea-generator
repository (`main.py`, with the RSS id generator also in `rss_fetcher.py`).

The pipeline code is shallowly embedded: network results (Reddit hot
listings, parsed RSS feeds) and AI-classifier outcomes are inputs to the
embedded functions, while all filtering, deduplication, scoring, ranking and
persistence logic is translated directly from the Python source.  Floating
point scores are modelled as rationals, timestamps as rationals, Python sets
of strings as lists with membership.
-/

set_option maxRecDepth 10000

/-! ## Python string primitives

Helpers modelling the Python string operations used by the pipeline:
`str.strip()`, `str.lower()`, and substring search.  Python's `str.strip()`
removes the whitespace characters ` \t\n\r\x0b\x0c` from both ends. -/

def isPyWs (c : Char) : Bool :=
  c = ' ' || c = '\t' || c = '\n' || c = '\r' || c = '\x0b' || c = '\x0c'

/-- Model of Python `str.strip()` on a character list. -/
def pyStripL (l : List Char) : List Char :=
  ((l.dropWhile isPyWs).reverse.dropWhile isPyWs).reverse

/-- Model of Python `str.strip()`. -/
def pyStrip (s : String) : String := String.mk (pyStripL s.data)

/-- Model of Python `str.lower()` (ASCII case folding). -/
def pyLower (s : String) : String := String.mk (s.data.map Char.toLower)

/-- Normalized title used by the deduplication code: `title.lower().strip()`. -/
def normTitle (s : String) : String := pyStrip (pyLower s)

/-! ## MD5

The RSS adapter computes candidate ids as
`hashlib.md5(link.encode()).hexdigest()[:16]`.  We embed MD5 itself
(RFC 1321), on byte lists represented as `Nat`s below 256, with all 32-bit
arithmetic done modulo `2^32`. -/

/-- The 2^32 modulus for MD5 word arithmetic. -/
def m32 : Nat := 4294967296

/-- MD5 sine-derived constant table `K` (floor(abs(sin(i+1)) * 2^32)). -/
def md5K : List Nat := [3614090360, 3905402710, 606105819, 3250441966, 4118548399, 1200080426, 2821735955, 4249261313, 1770035416, 2336552879, 4294925233, 2304563134, 1804603682, 4254626195, 2792965006, 1236535329, 4129170786, 3225465664, 643717713, 3921069994, 3593408605, 38016083, 3634488961, 3889429448, 568446438, 3275163606, 4107603335, 1163531501, 2850285829, 4243563512, 1735328473, 2368359562, 4294588738, 2272392833, 1839030562, 4259657740, 2763975236, 1272893353, 4139469664, 3200236656, 681279174, 3936430074, 3572445317, 76029189, 3654602809, 3873151461, 530742520, 3299628645, 4096336452, 1126891415, 2878612391, 4237533241, 1700485571, 2399980690, 4293915773, 2240044497, 1873313359, 4264355552, 2734768916, 1309151649, 4149444226, 3174756917, 718787259, 3951481745]

/-- MD5 per-round left-rotation amounts. -/
def md5S : List Nat := [7, 12, 17, 22, 7, 12, 17, 22, 7, 12, 17, 22, 7, 12, 17, 22, 5, 9, 14, 20, 5, 9, 14, 20, 5, 9, 14, 20, 5, 9, 14, 20, 4, 11, 16, 23, 4, 11, 16, 23, 4, 11, 16, 23, 4, 11, 16, 23, 6, 10, 15, 21, 6, 10, 15, 21, 6, 10, 15, 21, 6, 10, 15, 21]

/-- Bitwise complement of a 32-bit word represented as a `Nat` below `2^32`. -/
def not32 (x : Nat) : Nat := m32 - 1 - x % m32

/-- Left rotation of a 32-bit word by `c` places. -/
def rotl32 (x c : Nat) : Nat :=
  ((x % m32) * 2 ^ c) % m32 + (x % m32) / 2 ^ (32 - c)

/-- One MD5 round (index `i` from 0 to 63) acting on the working state. -/
def md5Round (ws : List Nat) (st : Nat × Nat × Nat × Nat) (i : Nat) :
    Nat × Nat × Nat × Nat :=
  let a := st.1
  let b := st.2.1
  let c := st.2.2.1
  let d := st.2.2.2
  let fg : Nat × Nat :=
    if i < 16 then ((b &&& c) ||| (not32 b &&& d), i)
    else if i < 32 then ((d &&& b) ||| (not32 d &&& c), (5 * i + 1) % 16)
    else if i < 48 then (b ^^^ c ^^^ d, (3 * i + 5) % 16)
    else (c ^^^ (b ||| not32 d), (7 * i) % 16)
  let rot := rotl32 ((a + fg.1 + md5K.getD i 0 + ws.getD fg.2 0) % m32) (md5S.getD i 0)
  (d, (b + rot) % m32, b, c)

/-- Convert 64 bytes into 16 little-endian 32-bit words (fuelled recursion). -/
def leWords : Nat → List Nat → List Nat
  | 0, _ => []
  | fuel + 1, b0 :: b1 :: b2 :: b3 :: rest =>
      (b0 + 256 * b1 + 65536 * b2 + 16777216 * b3) :: leWords fuel rest
  | _ + 1, _ => []

/-- Process one 64-byte block, updating the MD5 state. -/
def md5Block (st : Nat × Nat × Nat × Nat) (block : List Nat) :
    Nat × Nat × Nat × Nat :=
  let ws := leWords 16 block
  let r := (List.range 64).foldl (md5Round ws) st
  ((st.1 + r.1) % m32, (st.2.1 + r.2.1) % m32,
   (st.2.2.1 + r.2.2.1) % m32, (st.2.2.2 + r.2.2.2) % m32)

/-- Split a byte list into 64-byte blocks (fuelled structural recursion). -/
def toBlocksAux : Nat → List Nat → List (List Nat)
  | 0, _ => []
  | _ + 1, [] => []
  | fuel + 1, l => l.take 64 :: toBlocksAux fuel (l.drop 64)

def toBlocks (l : List Nat) : List (List Nat) := toBlocksAux l.length l

/-- MD5 padding: append `0x80`, zeros to 56 mod 64, and the 64-bit bit length
in little-endian byte order. -/
def md5Pad (msg : List Nat) : List Nat :=
  let len := msg.length
  let bitLen := (len * 8) % 18446744073709551616
  let k := (120 - (len + 1) % 64) % 64
  msg ++ [128] ++ List.replicate k 0 ++
    (List.range 8).map (fun i => bitLen / 2 ^ (8 * i) % 256)

/-- Little-endian byte decomposition of a 32-bit word. -/
def leBytes4 (x : Nat) : List Nat :=
  [x % 256, x / 256 % 256, x / 65536 % 256, x / 16777216 % 256]

/-- The 16-byte MD5 digest of a byte list. -/
def md5Digest (msg : List Nat) : List Nat :=
  let st := (toBlocks (md5Pad msg)).foldl md5Block
    (1732584193, 4023233417, 2562383102, 271733878)
  leBytes4 st.1 ++ leBytes4 st.2.1 ++ leBytes4 st.2.2.1 ++ leBytes4 st.2.2.2

/-- Lowercase hex digit. -/
def hexDigit (n : Nat) : Char :=
  if n < 10 then Char.ofNat (48 + n) else Char.ofNat (87 + n)

/-- Two-character lowercase hex rendering of one byte. -/
def byteHex (b : Nat) : List Char := [hexDigit (b / 16), hexDigit (b % 16)]

/-- UTF-8 encoding of one character (model of Python `str.encode()`). -/
def utf8Char (c : Char) : List Nat :=
  let n := c.toNat
  if n < 128 then [n]
  else if n < 2048 then [192 + n / 64, 128 + n % 64]
  else if n < 65536 then [224 + n / 4096, 128 + n / 64 % 64, 128 + n % 64]
  else [240 + n / 262144, 128 + n / 4096 % 64, 128 + n / 64 % 64, 128 + n % 64]

/-- UTF-8 byte encoding of a string. -/
def utf8Bytes (s : String) : List Nat := s.data.flatMap utf8Char

/-- Model of `hashlib.md5(s.encode()).hexdigest()`. -/
def md5HexOfString (s : String) : String :=
  String.mk ((md5Digest (utf8Bytes s)).flatMap byteHex)

/-- Model of `hashlib.md5(s.encode()).hexdigest()[:16]`, the RSS candidate id. -/
def md5Hex16 (s : String) : String :=
  String.mk (((md5Digest (utf8Bytes s)).flatMap byteHex).take 16)

/-! ## Kernel-reducible rational arithmetic

The Python pipeline does float arithmetic on scores; we model it exactly over
`ℚ`.  The library's `Rat.add`, `Rat.mul` and `Rat.inv` are irreducible, which
blocks `decide` on concrete runs, so the embedding uses the following
equivalent reducible operations. -/

def qadd (a b : ℚ) : ℚ := mkRat (a.num * b.den + b.num * a.den) (a.den * b.den)

def qmul (a b : ℚ) : ℚ := mkRat (a.num * b.num) (a.den * b.den)

def qdiv (a b : ℚ) : ℚ := qmul a (Rat.divInt b.den b.num)

theorem qadd_eq (a b : ℚ) : qadd a b = a + b := (Rat.add_def' a b).symm

theorem qmul_eq (a b : ℚ) : qmul a b = a * b := by
  rw [qmul, Rat.mul_def, Rat.normalize_eq_mkRat]

theorem qdiv_eq (a b : ℚ) : qdiv a b = a / b := by
  rw [qdiv, Rat.div_def, qmul_eq, Rat.inv_def]

/-! ## Data model

Candidate records mirror the Python dicts flowing through `main.py`.  A
Reddit candidate dict is the raw post dict updated in place with the
classifier verdict and a `ranking_score`; an RSS candidate dict is built
explicitly in `main()` with `source_type = "RSS"`.  We use one record type
with a `sourceRSS` flag (Python code reads `post.get("source_type", "Reddit")`,
so absence of the key is exactly `sourceRSS = false`). -/

/-- A Reddit submission as returned by the praw `subreddit.hot` listing. -/
structure RedditPost where
  id : String
  title : String
  permalink : String
  score : Int
  created_utc : ℚ
  stickied : Bool
deriving DecidableEq, Repr

/-- A raw Reddit candidate dict appended by `fetch_and_filter_reddit_candidates`. -/
structure RawCandidate where
  id : String
  title : String
  url : String
  score : Int
  subreddit : String
deriving DecidableEq, Repr

/-- Outcome of one classifier call as seen by `agent_relevance_filter`:
`none` models the call raising (retries exhausted) or returning a non-dict
(malformed structured output); `relevance_score = none` models a dict without
the `relevance_score` key (the callers then default it to `0.0`). -/
structure Verdict where
  is_good_candidate : Bool
  relevance_score : Option ℚ
  reason : Option String
deriving DecidableEq, Repr

/-- A candidate dict as it appears in `all_candidates` / `final_selection`. -/
structure Candidate where
  id : String
  title : String
  url : String
  score : Int
  subreddit : String
  relevance_score : Option ℚ
  reason : Option String
  ranking_score : ℚ
  sourceRSS : Bool
deriving DecidableEq, Repr

/-- One feed entry as produced by `feedparser` (network input), with the
publication time already converted to a UTC timestamp when parseable. -/
structure RawFeedEntry where
  title : String
  link : String
  summary : String
  published : Option ℚ
deriving DecidableEq, Repr

/-- One configured feed of `RSS_FEEDS` together with its parsed entries
(the network result of `feedparser.parse` for its URL). -/
structure FeedInfo where
  name : String
  priority : String
  entries : List RawFeedEntry
deriving DecidableEq, Repr

/-- An RSS entry dict as appended to `all_entries` by `fetch_rss_candidates`. -/
structure RssItem where
  id : String
  title : String
  url : String
  source : String
  published : Option ℚ
deriving DecidableEq, Repr

/-! ## Configuration constants from `main.py` -/

/-- `MIN_PROCESSING_SCORE = 0.65`. -/
def MIN_PROCESSING_SCORE : ℚ := mkRat 65 100

/-- `SUBREDDIT_CONFIG`: subreddit name with its per-subreddit minimum score,
in the Python dict's insertion (iteration) order. -/
def SUBREDDIT_CONFIG : List (String × Int) :=
  [("adops", 25), ("adtech", 10), ("advertising", 100), ("PPC", 150),
   ("marketing", 300), ("socialmedia", 100), ("digital_marketing", 200),
   ("SEO", 300), ("BusinessOfMedia", 10), ("publishing", 50), ("agency", 50),
   ("strategy", 25), ("branding", 100), ("datascience", 200), ("martech", 50),
   ("PublicRelations", 75), ("TechSEO", 25), ("learnpython", 100),
   ("MachineLearning", 200), ("Automation", 200), ("fintech", 50),
   ("privacy", 200)]

/-- `subreddit.hot(limit=30)`. -/
def REDDIT_HOT_LIMIT : Nat := 30

/-- `RSS_CONFIG["max_entries_per_feed"] = 20`. -/
def RSS_MAX_ENTRIES_PER_FEED : Nat := 20

/-! ## Stable descending sort

Python's `list.sort(key=..., reverse=True)` is a stable sort; with equal
keys the original order is kept.  We model it by stable insertion sort:
`lt c d` holds when `c`'s key is strictly below `d`'s, in which case `c`
belongs after `d` in the descending result. -/

def insDesc (lt : α → α → Bool) (c : α) : List α → List α
  | [] => [c]
  | d :: ds => if lt c d then d :: insDesc lt c ds else c :: d :: ds

def sortDescBy (lt : α → α → Bool) : List α → List α
  | [] => []
  | c :: cs => insDesc lt c (sortDescBy lt cs)

/-! ## RSS adapter (`fetch_rss_candidates` in `main.py`) -/

/-- Strict comparison of the per-entry sort key
`e["published"] if e["published"] else ""`: a missing date sorts below every
present date (ISO-8601 strings of same-era UTC dates compare like their
timestamps). -/
def pubLt (a b : Option ℚ) : Bool :=
  match a, b with
  | none, none => false
  | none, some _ => true
  | some _, none => false
  | some x, some y => decide (x < y)

/-- Loop state of `fetch_rss_candidates`: collected entries plus the
`seen_urls` / `seen_titles` dedup sets. -/
structure RssAcc where
  entries : List RssItem
  seenUrls : List String
  seenTitles : List String

/-- Body of the per-entry loop of `fetch_rss_candidates`: age filter,
empty-field filter, URL dedup, normalized-title dedup, then append with the
id `hashlib.md5(link.encode()).hexdigest()[:16]`. -/
def rssEntryStep (cutoff : ℚ) (feedName : String) (acc : RssAcc) (e : RawFeedEntry) : RssAcc :=
  if (match e.published with | some p => decide (p < cutoff) | none => false) then acc
  else if pyStrip e.title = "" ∨ pyStrip e.link = "" then acc
  else if pyStrip e.link ∈ acc.seenUrls then acc
  else if normTitle (pyStrip e.title) ∈ acc.seenTitles then acc
  else
    { entries := acc.entries ++
        [{ id := md5Hex16 (pyStrip e.link), title := pyStrip e.title,
           url := pyStrip e.link, source := feedName, published := e.published }],
      seenUrls := pyStrip e.link :: acc.seenUrls,
      seenTitles := normTitle (pyStrip e.title) :: acc.seenTitles }

/-- `fetch_rss_candidates()`: keep high-priority feeds
(`RSS_CONFIG["use_high_priority_only"]` is `True`), take the first 20 entries
of each, run the dedup loop, then sort by recency (stable, newest first).
The parsed feed contents and the 48-hour cutoff timestamp are inputs. -/
def fetch_rss_candidates (feeds : List FeedInfo) (cutoff : ℚ) : List RssItem :=
  sortDescBy (fun a b => pubLt a.published b.published)
    (((feeds.filter (fun f => f.priority == "high")).foldl
      (fun (a : RssAcc) (f : FeedInfo) =>
        (f.entries.take RSS_MAX_ENTRIES_PER_FEED).foldl (rssEntryStep cutoff f.name) a)
      ⟨[], [], []⟩).entries)

/-! ## Reddit adapter (`fetch_and_filter_reddit_candidates` in `main.py`) -/

/-- The scan of one subreddit's hot listing: `break` at the first post older
than the cutoff, `continue` on stickied / low-score / already-processed
posts, otherwise append a raw candidate and add its id to the in-memory
`processed_ids` set. -/
def scanPosts (cutoff : ℚ) (minScore : Int) (sub : String) :
    List String → List RawCandidate → List RedditPost → List RawCandidate × List String
  | proc, acc, [] => (acc, proc)
  | proc, acc, p :: ps =>
    if p.created_utc < cutoff then (acc, proc)
    else if p.stickied = true ∨ p.score < minScore ∨ p.id ∈ proc then
      scanPosts cutoff minScore sub proc acc ps
    else
      scanPosts cutoff minScore sub (p.id :: proc)
        (acc ++ [{ id := p.id, title := p.title,
                   url := "https://www.reddit.com" ++ p.permalink,
                   score := p.score, subreddit := sub }]) ps

/-- One iteration of the subreddit loop: scan the first 30 posts of the
subreddit's hot listing, threading the accumulated candidates and the
in-memory processed-id set. -/
def scanStep (hot : String → List RedditPost) (cutoff : ℚ)
    (st : List RawCandidate × List String) (cfg : String × Int) :
    List RawCandidate × List String :=
  scanPosts cutoff cfg.2 cfg.1 st.2 st.1 ((hot cfg.1).take REDDIT_HOT_LIMIT)

/-- The raw-candidate phase of `fetch_and_filter_reddit_candidates`: fold the
per-subreddit scans over `SUBREDDIT_CONFIG`, starting from the processed-id
set loaded from disk.  `hot` gives each subreddit's hot listing (network
input); the 24-hour cutoff timestamp is an input. -/
def fetch_reddit_raw (hot : String → List RedditPost) (cutoff : ℚ) (proc0 : List String) :
    List RawCandidate × List String :=
  SUBREDDIT_CONFIG.foldl (scanStep hot cutoff) ([], proc0)

/-! ## Relevance classification and ranking -/

/-- `agent_relevance_filter`: returns the classifier result only when the
call succeeded and `result.get("is_good_candidate")` is truthy; any raised
exception (including exhausted retries of `call`) or falsy/malformed result
yields `None`.  The per-candidate call outcome `classify` is an input. -/
def agent_relevance_filter {α : Type} (classify : α → Option Verdict) (x : α) : Option Verdict :=
  match classify x with
  | some v => if v.is_good_candidate then some v else none
  | none => none

/-- The accept branch of the Reddit classification loop:
`ai = post.get("relevance_score", 0.0)`, `popularity = min(1.0, score/3000)`,
`ranking_score = min(1.0, ai + popularity * 0.05)`, and the verdict keys are
merged into the post dict. -/
def viableOfRaw (classify : RawCandidate → Option Verdict) (post : RawCandidate) :
    Option Candidate :=
  match agent_relevance_filter classify post with
  | none => none
  | some v =>
    some { id := post.id, title := post.title, url := post.url, score := post.score,
           subreddit := post.subreddit, relevance_score := v.relevance_score,
           reason := v.reason,
           ranking_score := min 1 (qadd (v.relevance_score.getD 0)
             (qmul (min 1 (qdiv (post.score : ℚ) 3000)) (mkRat 5 100))),
           sourceRSS := false }

/-- The accept branch of the RSS classification loop in `main()`: the
candidate dict gets `score = 0`, the feed name as `subreddit`, the defaulted
AI score as both `ranking_score` and `relevance_score`, and
`source_type = "RSS"`. -/
def rssCandOfItem (classify : RssItem → Option Verdict) (e : RssItem) : Option Candidate :=
  match agent_relevance_filter classify e with
  | none => none
  | some v =>
    some { id := e.id, title := e.title, url := e.url, score := 0,
           subreddit := e.source,
           relevance_score := some (v.relevance_score.getD 0), reason := v.reason,
           ranking_score := v.relevance_score.getD 0, sourceRSS := true }

/-! ## The auto-discovery run of `main()` -/

/-- All external inputs of one auto-discovery pipeline run. -/
structure PipelineInput where
  hot : String → List RedditPost
  feeds : List FeedInfo
  classifyReddit : RawCandidate → Option Verdict
  classifyRss : RssItem → Option Verdict
  processedFile : List String
  redditCutoff : ℚ
  rssCutoff : ℚ

/-- The `raw_candidates` list of `fetch_and_filter_reddit_candidates`. -/
def rawRedditCandidates (inp : PipelineInput) : List RawCandidate :=
  (fetch_reddit_raw inp.hot inp.redditCutoff inp.processedFile).1

/-- The `viable_candidates` list returned by
`fetch_and_filter_reddit_candidates`. -/
def redditCandidates (inp : PipelineInput) : List Candidate :=
  (rawRedditCandidates inp).filterMap (viableOfRaw inp.classifyReddit)

/-- The `rss_entries` list of `main()`. -/
def rssItems (inp : PipelineInput) : List RssItem :=
  fetch_rss_candidates inp.feeds inp.rssCutoff

/-- The `rss_candidates` list of `main()`. -/
def rssCandidates (inp : PipelineInput) : List Candidate :=
  (rssItems inp).filterMap (rssCandOfItem inp.classifyRss)

/-- `all_candidates = reddit_candidates + rss_candidates`. -/
def allCandidates (inp : PipelineInput) : List Candidate :=
  redditCandidates inp ++ rssCandidates inp

/-- Sort key comparison for `final_selection.sort(key=ranking_score, reverse=True)`. -/
def candLt (a b : Candidate) : Bool := decide (a.ranking_score < b.ranking_score)

/-- `final_selection`: threshold filter by `MIN_PROCESSING_SCORE`, then the
stable descending sort by `ranking_score`.  This is the final selected
output handed to processing. -/
def finalSelection (inp : PipelineInput) : List Candidate :=
  sortDescBy candLt
    ((allCandidates inp).filter (fun c => decide (MIN_PROCESSING_SCORE ≤ c.ranking_score)))

/-- Step 6 of `main()`: for each selected candidate run the idea-factory
hand-off inside `try`, and only on success append its id to the processed
file (`save_processed_id` itself swallows write errors, modelled by
`saveOk`).  Returns the ids newly appended to the processed file. -/
def processSelection (handoff : Candidate → Bool) (saveOk : String → Bool)
    (sel : List Candidate) : List String :=
  sel.foldl
    (fun saved c =>
      if handoff c then (if saveOk c.id then saved ++ [c.id] else saved) else saved)
    []

/-! ## The `RSSEntry` class of `rss_fetcher.py` (cited by the id claim) -/

/-- Feed metadata passed to `RSSEntry.__init__` from `rss_sources.py`. -/
structure FeedMeta where
  name : String
  pillar : String
  topics : List String
deriving DecidableEq, Repr

/-- The `RSSEntry` object of `rss_fetcher.py`. -/
structure RSSEntryM where
  title : String
  link : String
  summary : String
  published : Option ℚ
  source : String
  pillar : String
  topics : List String
  id : String
deriving DecidableEq, Repr

/-- `RSSEntry._generate_id`: md5 of `self.link or self.title`, truncated to
16 hex characters (an empty link falls back to the stripped title). -/
def rssEntryGenerateId (link title : String) : String :=
  md5Hex16 (if link = "" then title else link)

/-- `RSSEntry.__init__`: strip the raw fields, copy the feed metadata, and
compute the id. -/
def mkRSSEntry (e : RawFeedEntry) (f : FeedMeta) : RSSEntryM :=
  { title := pyStrip e.title, link := pyStrip e.link, summary := pyStrip e.summary,
    published := e.published, source := f.name, pillar := f.pillar,
    topics := f.topics, id := rssEntryGenerateId (pyStrip e.link) (pyStrip e.title) }

/-! ## Lemmas about the stable descending sort -/

theorem insDesc_perm (lt : α → α → Bool) (c : α) (l : List α) :
    (insDesc lt c l).Perm (c :: l) := by
  induction l with
  | nil => simp [insDesc]
  | cons d ds ih =>
    simp only [insDesc]
    split
    · exact (ih.cons d).trans (List.Perm.swap c d ds)
    · exact List.Perm.refl _

theorem sortDescBy_perm (lt : α → α → Bool) (l : List α) :
    (sortDescBy lt l).Perm l := by
  induction l with
  | nil => simp [sortDescBy]
  | cons c cs ih => exact (insDesc_perm lt c _).trans (ih.cons c)

theorem mem_sortDescBy {lt : α → α → Bool} {l : List α} {a : α} :
    a ∈ sortDescBy lt l ↔ a ∈ l :=
  (sortDescBy_perm lt l).mem_iff

theorem insDesc_pairwise {lt : α → α → Bool}
    (asym : ∀ a b, lt a b = true → lt b a = false)
    (negtrans : ∀ a b e, lt a b = false → lt b e = false → lt a e = false)
    (c : α) {l : List α} (h : l.Pairwise fun a b => lt a b = false) :
    (insDesc lt c l).Pairwise fun a b => lt a b = false := by
  induction l with
  | nil => simp [insDesc]
  | cons d ds ih =>
    rcases List.pairwise_cons.1 h with ⟨hd, hds⟩
    simp only [insDesc]
    split
    · next h1 =>
      refine List.pairwise_cons.2 ⟨?_, ih hds⟩
      intro x hx
      rcases List.mem_cons.1 ((insDesc_perm lt c ds).mem_iff.1 hx) with rfl | hx'
      · exact asym _ d h1
      · exact hd x hx'
    · next h1 =>
      have h1' : lt c d = false := by
        revert h1; cases lt c d <;> simp
      refine List.pairwise_cons.2 ⟨?_, h⟩
      intro x hx
      rcases List.mem_cons.1 hx with rfl | hx
      · exact h1'
      · exact negtrans c d x h1' (hd x hx)

theorem sortDescBy_pairwise {lt : α → α → Bool}
    (asym : ∀ a b, lt a b = true → lt b a = false)
    (negtrans : ∀ a b e, lt a b = false → lt b e = false → lt a e = false)
    (l : List α) :
    (sortDescBy lt l).Pairwise fun a b => lt a b = false := by
  induction l with
  | nil => simp [sortDescBy]
  | cons c cs ih => exact insDesc_pairwise asym negtrans c ih

theorem candLt_asym (a b : Candidate) : candLt a b = true → candLt b a = false := by
  simp only [candLt, decide_eq_true_eq, decide_eq_false_iff_not]
  exact fun h => not_lt.2 h.le

theorem candLt_negtrans (a b e : Candidate) :
    candLt a b = false → candLt b e = false → candLt a e = false := by
  simp only [candLt, decide_eq_false_iff_not, not_lt]
  exact fun h1 h2 => h2.trans h1

/-! ## Pairwise helper -/

theorem eq_of_pairwise_key (k : α → β) :
    ∀ {l : List α}, (l.Pairwise fun a b => k a ≠ k b) →
      ∀ {a b}, a ∈ l → b ∈ l → k a = k b → a = b := by
  intro l
  induction l with
  | nil => intro _ a b ha; cases ha
  | cons x xs ih =>
    intro h a b ha hb hk
    rcases List.pairwise_cons.1 h with ⟨hx, hxs⟩
    rcases List.mem_cons.1 ha with rfl | ha'
    · rcases List.mem_cons.1 hb with rfl | hb'
      · rfl
      · exact (hx b hb' hk).elim
    · rcases List.mem_cons.1 hb with rfl | hb'
      · exact (hx a ha' hk.symm).elim
      · exact ih hxs ha' hb' hk

/-! ## Invariants of the Reddit scan

The scan threads the in-memory `processed_ids` set: every emitted candidate
id is recorded in it, ids already present are never re-emitted, and the set
only grows.  These three facts give cross-run exclusion (for the ids loaded
from disk) and in-run uniqueness of raw candidate ids. -/

theorem scanPosts_proc_sub (cutoff : ℚ) (ms : Int) (sub : String) :
    ∀ (ps : List RedditPost) (proc : List String) (acc : List RawCandidate)
      (x : String), x ∈ proc → x ∈ (scanPosts cutoff ms sub proc acc ps).2 := by
  intro ps
  induction ps with
  | nil => intro proc acc x hx; simpa [scanPosts] using hx
  | cons p ps ih =>
    intro proc acc x hx
    simp only [scanPosts]
    split
    · simpa using hx
    · split
      · exact ih _ _ _ hx
      · exact ih _ _ _ (List.mem_cons_of_mem _ hx)

theorem scanPosts_inv (cutoff : ℚ) (ms : Int) (sub : String) :
    ∀ (ps : List RedditPost) (proc : List String) (acc : List RawCandidate),
      (∀ c ∈ acc, c.id ∈ proc) →
      acc.Pairwise (fun a b => a.id ≠ b.id) →
      (∀ c ∈ (scanPosts cutoff ms sub proc acc ps).1,
          c.id ∈ (scanPosts cutoff ms sub proc acc ps).2) ∧
      (scanPosts cutoff ms sub proc acc ps).1.Pairwise (fun a b => a.id ≠ b.id) ∧
      (∀ c ∈ (scanPosts cutoff ms sub proc acc ps).1, c ∈ acc ∨ c.id ∉ proc) := by
  intro ps
  induction ps with
  | nil =>
    intro proc acc h1 h2
    exact ⟨by simpa [scanPosts] using h1, by simpa [scanPosts] using h2,
      by simp only [scanPosts]; exact fun c hc => Or.inl hc⟩
  | cons p ps ih =>
    intro proc acc h1 h2
    simp only [scanPosts]
    split
    · exact ⟨h1, h2, fun c hc => Or.inl hc⟩
    · split
      · exact ih proc acc h1 h2
      · next hkeep =>
        have hid : p.id ∉ proc := fun hp => hkeep (Or.inr (Or.inr hp))
        have h1' : ∀ c ∈ acc ++
            [({ id := p.id, title := p.title,
                url := "https://www.reddit.com" ++ p.permalink,
                score := p.score, subreddit := sub } : RawCandidate)],
            c.id ∈ p.id :: proc := by
          intro c hc
          rcases List.mem_append.1 hc with h | h
          · exact List.mem_cons_of_mem _ (h1 c h)
          · simp only [List.mem_singleton] at h
            subst h
            exact List.mem_cons_self _ _
        have h2' : (acc ++
            [({ id := p.id, title := p.title,
                url := "https://www.reddit.com" ++ p.permalink,
                score := p.score, subreddit := sub } : RawCandidate)]).Pairwise
            (fun a b => a.id ≠ b.id) := by
          refine List.pairwise_append.2 ⟨h2, List.pairwise_singleton .., ?_⟩
          intro a ha b hb
          simp only [List.mem_singleton] at hb
          subst hb
          intro hab
          have hab' : a.id = p.id := hab
          exact hid (hab' ▸ h1 a ha)
        obtain ⟨g1, g2, g3⟩ := ih _ _ h1' h2'
        refine ⟨g1, g2, fun c hc => ?_⟩
        rcases g3 c hc with hmem | hnot
        · rcases List.mem_append.1 hmem with h | h
          · exact Or.inl h
          · simp only [List.mem_singleton] at h
            subst h
            exact Or.inr hid
        · exact Or.inr fun hp => hnot (List.mem_cons_of_mem _ hp)

theorem foldScan_inv (hot : String → List RedditPost) (cutoff : ℚ) :
    ∀ (cfgs : List (String × Int)) (st : List RawCandidate × List String),
      (∀ c ∈ st.1, c.id ∈ st.2) →
      st.1.Pairwise (fun a b => a.id ≠ b.id) →
      (∀ c ∈ (cfgs.foldl (scanStep hot cutoff) st).1,
          c.id ∈ (cfgs.foldl (scanStep hot cutoff) st).2) ∧
      (cfgs.foldl (scanStep hot cutoff) st).1.Pairwise (fun a b => a.id ≠ b.id) ∧
      (∀ x ∈ st.2, x ∈ (cfgs.foldl (scanStep hot cutoff) st).2) ∧
      (∀ c ∈ (cfgs.foldl (scanStep hot cutoff) st).1, c ∈ st.1 ∨ c.id ∉ st.2) := by
  intro cfgs
  induction cfgs with
  | nil =>
    intro st h1 h2
    exact ⟨h1, h2, fun x hx => hx, fun c hc => Or.inl hc⟩
  | cons cfg cfgs ih =>
    intro st h1 h2
    simp only [List.foldl_cons]
    obtain ⟨s1, s2, s3⟩ := scanPosts_inv cutoff cfg.2 cfg.1 _ st.2 st.1 h1 h2
    obtain ⟨g1, g2, g3, g4⟩ := ih (scanStep hot cutoff st cfg) s1 s2
    refine ⟨g1, g2, ?_, ?_⟩
    · intro x hx
      exact g3 x (scanPosts_proc_sub cutoff cfg.2 cfg.1 _ st.2 st.1 x hx)
    · intro c hc
      rcases g4 c hc with hmem | hnot
      · exact s3 c hmem
      · exact Or.inr fun hp =>
          hnot (scanPosts_proc_sub cutoff cfg.2 cfg.1 _ st.2 st.1 _ hp)

theorem rawReddit_pairwise (inp : PipelineInput) :
    (rawRedditCandidates inp).Pairwise (fun a b => a.id ≠ b.id) :=
  (foldScan_inv inp.hot inp.redditCutoff SUBREDDIT_CONFIG ([], inp.processedFile)
    (by simp) (by simp)).2.1

theorem rawReddit_not_processed (inp : PipelineInput) :
    ∀ c ∈ rawRedditCandidates inp, c.id ∉ inp.processedFile := by
  intro c hc
  rcases (foldScan_inv inp.hot inp.redditCutoff SUBREDDIT_CONFIG
      ([], inp.processedFile) (by simp) (by simp)).2.2.2 c hc with hmem | hnot
  · cases hmem
  · exact hnot

/-! ## Invariants of the RSS dedup loop -/

/-- Invariant of the `fetch_rss_candidates` loop state: every collected
entry's URL and normalized title are in the seen-sets, and collected entries
are pairwise distinct in both keys. -/
def rssOkAcc (acc : RssAcc) : Prop :=
  (∀ it ∈ acc.entries, it.url ∈ acc.seenUrls ∧ normTitle it.title ∈ acc.seenTitles) ∧
  acc.entries.Pairwise (fun a b => a.url ≠ b.url ∧ normTitle a.title ≠ normTitle b.title)

theorem rssEntryStep_ok (cutoff : ℚ) (name : String) (acc : RssAcc)
    (e : RawFeedEntry) (h : rssOkAcc acc) : rssOkAcc (rssEntryStep cutoff name acc e) := by
  obtain ⟨h1, h2⟩ := h
  unfold rssEntryStep
  split
  · exact ⟨h1, h2⟩
  · split
    · exact ⟨h1, h2⟩
    · split
      · exact ⟨h1, h2⟩
      · split
        · exact ⟨h1, h2⟩
        · next hurl hnt =>
          constructor
          · intro it hit
            rcases List.mem_append.1 hit with hmem | hmem
            · obtain ⟨u, t⟩ := h1 it hmem
              exact ⟨List.mem_cons_of_mem _ u, List.mem_cons_of_mem _ t⟩
            · simp only [List.mem_singleton] at hmem
              subst hmem
              exact ⟨List.mem_cons_self .., List.mem_cons_self ..⟩
          · refine List.pairwise_append.2 ⟨h2, List.pairwise_singleton .., ?_⟩
            intro a ha b hb
            simp only [List.mem_singleton] at hb
            subst hb
            obtain ⟨u, t⟩ := h1 a ha
            constructor
            · intro hu
              have hu' : a.url = pyStrip e.link := hu
              exact hurl (hu' ▸ u)
            · intro ht
              have ht' : normTitle a.title = normTitle (pyStrip e.title) := ht
              exact hnt (ht' ▸ t)

theorem rssFoldEntries_ok (cutoff : ℚ) (name : String) :
    ∀ (es : List RawFeedEntry) (acc : RssAcc), rssOkAcc acc →
      rssOkAcc (es.foldl (rssEntryStep cutoff name) acc) := by
  intro es
  induction es with
  | nil => intro acc h; exact h
  | cons e es ih =>
    intro acc h
    exact ih _ (rssEntryStep_ok cutoff name acc e h)

theorem fetch_rss_pairwise (feeds : List FeedInfo) (cutoff : ℚ) :
    (fetch_rss_candidates feeds cutoff).Pairwise
      (fun a b => a.url ≠ b.url ∧ normTitle a.title ≠ normTitle b.title) := by
  unfold fetch_rss_candidates
  have hsym : Symmetric
      (fun a b : RssItem => a.url ≠ b.url ∧ normTitle a.title ≠ normTitle b.title) :=
    fun a b h => ⟨h.1.symm, h.2.symm⟩
  rw [(sortDescBy_perm _ _).pairwise_iff (fun h => hsym h)]
  have : ∀ (fs : List FeedInfo) (acc : RssAcc), rssOkAcc acc →
      rssOkAcc (fs.foldl
        (fun a f => (f.entries.take RSS_MAX_ENTRIES_PER_FEED).foldl
          (rssEntryStep cutoff f.name) a) acc) := by
    intro fs
    induction fs with
    | nil => intro acc h; exact h
    | cons f fs ih =>
      intro acc h
      exact ih _ (rssFoldEntries_ok cutoff f.name _ acc h)
  exact (this _ ⟨[], [], []⟩ ⟨by simp, List.Pairwise.nil⟩).2

theorem rssItems_pairwise (inp : PipelineInput) :
    (rssItems inp).Pairwise
      (fun a b => a.url ≠ b.url ∧ normTitle a.title ≠ normTitle b.title) :=
  fetch_rss_pairwise inp.feeds inp.rssCutoff

/-! ## Shape of accepted candidates -/

theorem viableOfRaw_eq_some {cl : RawCandidate → Option Verdict} {r : RawCandidate}
    {c : Candidate} (h : viableOfRaw cl r = some c) :
    ∃ v, cl r = some v ∧ v.is_good_candidate = true ∧
      c.id = r.id ∧ c.title = r.title ∧ c.url = r.url ∧ c.score = r.score ∧
      c.subreddit = r.subreddit ∧ c.relevance_score = v.relevance_score ∧
      c.reason = v.reason ∧ c.sourceRSS = false ∧
      c.ranking_score = min 1 (qadd (v.relevance_score.getD 0)
        (qmul (min 1 (qdiv (r.score : ℚ) 3000)) (mkRat 5 100))) := by
  unfold viableOfRaw agent_relevance_filter at h
  cases hcl : cl r with
  | none => rw [hcl] at h; exact absurd h (by simp)
  | some v =>
    rw [hcl] at h
    by_cases hg : v.is_good_candidate
    · simp only [hg, if_true] at h
      rw [Option.some_inj] at h
      subst h
      exact ⟨v, rfl, hg, rfl, rfl, rfl, rfl, rfl, rfl, rfl, rfl, rfl⟩
    · simp [hg] at h

theorem rssCandOfItem_eq_some {cl : RssItem → Option Verdict} {e : RssItem}
    {c : Candidate} (h : rssCandOfItem cl e = some c) :
    ∃ v, cl e = some v ∧ v.is_good_candidate = true ∧
      c.id = e.id ∧ c.title = e.title ∧ c.url = e.url ∧ c.score = 0 ∧
      c.subreddit = e.source ∧
      c.relevance_score = some (v.relevance_score.getD 0) ∧
      c.reason = v.reason ∧ c.sourceRSS = true ∧
      c.ranking_score = v.relevance_score.getD 0 := by
  unfold rssCandOfItem agent_relevance_filter at h
  cases hcl : cl e with
  | none => rw [hcl] at h; exact absurd h (by simp)
  | some v =>
    rw [hcl] at h
    by_cases hg : v.is_good_candidate
    · simp only [hg, if_true] at h
      rw [Option.some_inj] at h
      subst h
      exact ⟨v, rfl, hg, rfl, rfl, rfl, rfl, rfl, rfl, rfl, rfl, rfl⟩
    · simp [hg] at h

/-! ## Membership in the pipeline stages -/

theorem mem_redditCandidates {inp : PipelineInput} {c : Candidate} :
    c ∈ redditCandidates inp ↔
      ∃ r ∈ rawRedditCandidates inp, viableOfRaw inp.classifyReddit r = some c := by
  simp [redditCandidates, List.mem_filterMap]

theorem mem_rssCandidates {inp : PipelineInput} {c : Candidate} :
    c ∈ rssCandidates inp ↔
      ∃ e ∈ rssItems inp, rssCandOfItem inp.classifyRss e = some c := by
  simp [rssCandidates, List.mem_filterMap]

theorem redditCandidates_sourceRSS {inp : PipelineInput} {c : Candidate}
    (h : c ∈ redditCandidates inp) : c.sourceRSS = false := by
  obtain ⟨r, _, hr⟩ := mem_redditCandidates.1 h
  obtain ⟨v, _, _, _, _, _, _, _, _, _, hsrc, _⟩ := viableOfRaw_eq_some hr
  exact hsrc

theorem rssCandidates_sourceRSS {inp : PipelineInput} {c : Candidate}
    (h : c ∈ rssCandidates inp) : c.sourceRSS = true := by
  obtain ⟨e, _, he⟩ := mem_rssCandidates.1 h
  obtain ⟨v, _, _, _, _, _, _, _, _, _, hsrc, _⟩ := rssCandOfItem_eq_some he
  exact hsrc

theorem mem_finalSelection {inp : PipelineInput} {c : Candidate} :
    c ∈ finalSelection inp ↔
      c ∈ allCandidates inp ∧ MIN_PROCESSING_SCORE ≤ c.ranking_score := by
  unfold finalSelection
  rw [mem_sortDescBy, List.mem_filter]
  simp

theorem finalSelection_perm (inp : PipelineInput) :
    (finalSelection inp).Perm
      ((allCandidates inp).filter
        (fun c => decide (MIN_PROCESSING_SCORE ≤ c.ranking_score))) :=
  sortDescBy_perm _ _

/-! ## Dedup and order facts about the final selection -/

theorem rssCandidates_pairwise (inp : PipelineInput) :
    (rssCandidates inp).Pairwise
      (fun a b => a.url ≠ b.url ∧ normTitle a.title ≠ normTitle b.title) := by
  unfold rssCandidates
  refine List.Pairwise.filterMap _ ?_ (rssItems_pairwise inp)
  intro e e' hR c hc c' hc'
  obtain ⟨v, _, _, _, ht, hu, _⟩ := rssCandOfItem_eq_some (Option.mem_def.mp hc)
  obtain ⟨v', _, _, _, ht', hu', _⟩ := rssCandOfItem_eq_some (Option.mem_def.mp hc')
  rw [hu, hu', ht, ht']
  exact hR

theorem redditCandidates_pairwise_id (inp : PipelineInput) :
    (redditCandidates inp).Pairwise (fun a b => a.id ≠ b.id) := by
  unfold redditCandidates
  refine List.Pairwise.filterMap _ ?_ (rawReddit_pairwise inp)
  intro r r' hR c hc c' hc'
  obtain ⟨v, _, _, hid, _⟩ := viableOfRaw_eq_some (Option.mem_def.mp hc)
  obtain ⟨v', _, _, hid', _⟩ := viableOfRaw_eq_some (Option.mem_def.mp hc')
  rw [hid, hid']
  exact hR

theorem finalSelection_rss_pairwise (inp : PipelineInput) :
    ((finalSelection inp).filter (fun c => c.sourceRSS)).Pairwise
      (fun a b => a.url ≠ b.url ∧ normTitle a.title ≠ normTitle b.title) := by
  have hsym : ∀ {x y : Candidate},
      (x.url ≠ y.url ∧ normTitle x.title ≠ normTitle y.title) →
      (y.url ≠ x.url ∧ normTitle y.title ≠ normTitle x.title) :=
    fun h => ⟨h.1.symm, h.2.symm⟩
  rw [((finalSelection_perm inp).filter (fun c => c.sourceRSS)).pairwise_iff hsym]
  rw [allCandidates, List.filter_append, List.filter_append]
  have h1 : ((redditCandidates inp).filter
      (fun c => decide (MIN_PROCESSING_SCORE ≤ c.ranking_score))).filter
      (fun c => c.sourceRSS) = [] := by
    refine List.filter_eq_nil_iff.2 ?_
    intro c hc
    have := redditCandidates_sourceRSS (List.mem_of_mem_filter hc)
    simp [this]
  rw [h1, List.nil_append]
  exact ((rssCandidates_pairwise inp).filter _).filter _

theorem finalSelection_reddit_pairwise_id (inp : PipelineInput) :
    ((finalSelection inp).filter (fun c => !c.sourceRSS)).Pairwise
      (fun a b => a.id ≠ b.id) := by
  have hsym : ∀ {x y : Candidate}, x.id ≠ y.id → y.id ≠ x.id := fun h => h.symm
  rw [((finalSelection_perm inp).filter (fun c => !c.sourceRSS)).pairwise_iff hsym]
  rw [allCandidates, List.filter_append, List.filter_append]
  have h1 : ((rssCandidates inp).filter
      (fun c => decide (MIN_PROCESSING_SCORE ≤ c.ranking_score))).filter
      (fun c => !c.sourceRSS) = [] := by
    refine List.filter_eq_nil_iff.2 ?_
    intro c hc
    have := rssCandidates_sourceRSS (List.mem_of_mem_filter hc)
    simp [this]
  rw [h1, List.append_nil]
  exact ((redditCandidates_pairwise_id inp).filter _).filter _

theorem finalSelection_sorted (inp : PipelineInput) :
    (finalSelection inp).Pairwise (fun a b => b.ranking_score ≤ a.ranking_score) := by
  have h := sortDescBy_pairwise candLt_asym candLt_negtrans
    ((allCandidates inp).filter (fun c => decide (MIN_PROCESSING_SCORE ≤ c.ranking_score)))
  exact h.imp (by intro a b hab; simpa [candLt, not_lt] using hab)

/-! ## JSON extraction (`extract_json` and the `call` retry loop)

`extract_json` first strips a `<json>...</json>` wrapper (the regex
`<json>(.*?)</json>` with DOTALL and IGNORECASE: leftmost opening tag,
earliest closing tag after it), then a fenced block (the regex
` ```json\s*(\{.*?\}|\[.*?\])\s*``` `: at each occurrence of the fence
opener, skip whitespace, then take the shortest brace- or
bracket-delimited group whose closer is followed by optional whitespace and
a closing fence, advancing to the next occurrence when this fails), tries a
direct parse when the payload starts with a brace or bracket, and finally
parses the substring from the first `{` to the last `}`.  Python's
`json.loads` is an external library routine; it is abstracted as a
`loads : String → Option Json` parameter (`none` models a raised
`JSONDecodeError`, always caught). -/

/-- JSON values, the possible results of a successful parse. -/
inductive Json where
  | null
  | bool (b : Bool)
  | num (q : ℚ)
  | str (s : String)
  | arr (xs : List Json)
  | obj (fields : List (String × Json))

/-- Result of `extract_json`: a parsed value, or (on total parse failure)
the processed string itself, returned as a plain value, never raised. -/
inductive ExtractResult where
  | json (j : Json)
  | raw (s : String)

def ExtractResult.isRaw : ExtractResult → Bool
  | .raw _ => true
  | .json _ => false

/-- ASCII lowercase of a character list (for IGNORECASE matching). -/
def lowerL (l : List Char) : List Char := l.map Char.toLower

/-- Case-insensitive prefix test. -/
def isPrefixCI (pat l : List Char) : Bool := (lowerL pat).isPrefixOf (lowerL l)

/-- Split at the first (leftmost) case-insensitive occurrence of `pat`:
returns the part before the occurrence and the part after it. -/
def splitFirstCI (pat : List Char) : List Char → Option (List Char × List Char)
  | [] => if pat.isEmpty then some ([], []) else none
  | c :: cs =>
    if isPrefixCI pat (c :: cs) then some ([], (c :: cs).drop pat.length)
    else
      match splitFirstCI pat cs with
      | some (b, a) => some (c :: b, a)
      | none => none

/-- The group of `re.search(r'<json>(.*?)</json>', s, DOTALL | IGNORECASE)`:
text between the first opening tag and the earliest closing tag after it. -/
def searchTag (l : List Char) : Option (List Char) :=
  match splitFirstCI "<json>".data l with
  | none => none
  | some (_, rest) =>
    match splitFirstCI "</json>".data rest with
    | none => none
    | some (grp, _) => some grp

/-- Scan for the earliest closing delimiter that is followed by optional
whitespace and a closing fence; returns the consumed characters (closer
included). -/
def fencedClose (close : Char) : List Char → Option (List Char)
  | [] => none
  | c :: cs =>
    if c = close && "```".data.isPrefixOf (cs.dropWhile isPyWs) then some [c]
    else
      match fencedClose close cs with
      | some g => some (c :: g)
      | none => none

/-- Attempt the fenced-block match right after one occurrence of the fence
opener: `\s*` then a `{...}` or `[...]` group. -/
def fencedAttempt (rest : List Char) : Option (List Char) :=
  match rest.dropWhile isPyWs with
  | '\x7b' :: t => (fencedClose '\x7d' t).map (fun g => '\x7b' :: g)
  | '[' :: t => (fencedClose ']' t).map (fun g => '[' :: g)
  | _ => none

/-- The group of the fenced-code-block regex: try each occurrence of the
fence opener from left to right, as the backtracking engine does. -/
def searchFencedL : List Char → Option (List Char)
  | [] => none
  | c :: cs =>
    if isPrefixCI "```json".data (c :: cs) then
      match fencedAttempt ((c :: cs).drop 7) with
      | some g => some g
      | none => searchFencedL cs
    else searchFencedL cs

/-- Replace the working string by the tag group when the tag regex matches. -/
def afterTag (l : List Char) : List Char := (searchTag l).getD l

/-- Replace the working string by the fenced group when that regex matches. -/
def afterFence (l : List Char) : List Char := (searchFencedL l).getD l

/-- The working string of `extract_json` after `strip()` and both wrapper
substitutions. -/
def strippedPayload (s0 : String) : List Char := afterFence (afterTag (pyStripL s0.data))

/-- Index of the last occurrence of a character (`str.rfind`). -/
def lastIdxOf (l : List Char) (c : Char) : Option Nat :=
  match List.findIdx? (fun x => x = c) l.reverse with
  | some i => some (l.length - 1 - i)
  | none => none

/-- The final fallback of `extract_json`: parse the substring from the first
`{` to the last `}` when both exist in that order; otherwise, or when that
parse also fails, return the working string itself. -/
def jsonFallback (loads : String → Option Json) (l : List Char) : ExtractResult :=
  match List.findIdx? (fun x => x = '\x7b') l, lastIdxOf l '\x7d' with
  | some st, some en =>
    if st < en then
      match loads (String.mk ((l.drop st).take (en + 1 - st))) with
      | some j => .json j
      | none => .raw (String.mk l)
    else .raw (String.mk l)
  | _, _ => .raw (String.mk l)

/-- `extract_json(s)` from `main.py`. -/
def extract_json (loads : String → Option Json) (s0 : String) : ExtractResult :=
  match (if (strippedPayload s0).head? = some '\x7b' ∨ (strippedPayload s0).head? = some '['
         then loads (String.mk (strippedPayload s0)) else none) with
  | some j => .json j
  | none => jsonFallback loads (strippedPayload s0)

/-- The retry loop of `call` (json mode, OpenAI route): each attempt either
raises inside the API call (`none`) or yields the response text; the first
successful attempt's text goes through `extract_json` and is returned, and
only when every attempt raised does the loop end with `RuntimeError`. -/
def callAttempts (loads : String → Option Json) :
    List (Option String) → Except String ExtractResult
  | [] => .error "Failed after retries"
  | some content :: _ => .ok (extract_json loads content)
  | none :: rest => callAttempts loads rest

/-- The sentinel dict `{"error": "json_parse_failed"}` of `_call_anthropic`. -/
def errJson : Json := Json.obj [("error", Json.str "json_parse_failed")]

/-- The json-mode tail of `_call_anthropic`: extract the `<json>` group,
parse strictly, re-attempt leniently (`strict=False`), and return the
explicit error dict when anything fails. -/
def anthropic_json_extract (loads lenient : String → Option Json)
    (content : String) : Json :=
  match searchTag content.data with
  | some g =>
    match loads (String.mk (pyStripL g)) with
    | some j => j
    | none =>
      match lenient (String.mk (pyStripL g)) with
      | some j => j
      | none => errJson
  | none => errJson
theorem mkRat_eq_div (n : Int) (d : Nat) : mkRat n d = (n : ℚ) / (d : ℚ) := by
  rw [Rat.mkRat_eq_divInt, Rat.divInt_eq_div]
  norm_num

/-- C10: in the Reddit adapter, scanning a subreddit's hot listing stops at
the first post older than the time-window cutoff; every later post in the
listing is never considered in that run, even if its own timestamp is inside
the window: the scan of `l1 ++ p :: l2` equals the scan of `l1` alone. -/
theorem c10_time_window_prefix_cut (cutoff : ℚ) (ms : Int) (sub : String)
    (proc : List String) (acc : List RawCandidate)
    (l1 : List RedditPost) (p : RedditPost) (l2 : List RedditPost)
    (hfresh : ∀ q ∈ l1, ¬(q.created_utc < cutoff))
    (hold : p.created_utc < cutoff) :
    scanPosts cutoff ms sub proc acc (l1 ++ p :: l2) =
      scanPosts cutoff ms sub proc acc l1 := by
  induction l1 generalizing proc acc with
  | nil =>
    simp only [List.nil_append, scanPosts]
    rw [if_pos hold]
  | cons q l1 ih =>
    have hq : ¬(q.created_utc < cutoff) := hfresh q (List.mem_cons_self ..)
    have hfresh' : ∀ r ∈ l1, ¬(r.created_utc < cutoff) :=
      fun r hr => hfresh r (List.mem_cons_of_mem _ hr)
    simp only [List.cons_append, scanPosts]
    rw [if_neg hq, if_neg hq]
    by_cases hskip : q.stickied = true ∨ q.score < ms ∨ q.id ∈ proc
    · rw [if_pos hskip, if_pos hskip]
      exact ih _ _ hfresh'
    · rw [if_neg hskip, if_neg hskip]
      exact ih _ _ hfresh'

def c10fresh : RedditPost :=
  { id := "q1", title := "Fresh", permalink := "/r/adops/comments/q1/a/",
    score := 50, created_utc := 100, stickied := false }

def c10old : RedditPost :=
  { id := "q2", title := "Old", permalink := "/r/adops/comments/q2/b/",
    score := 80, created_utc := -5, stickied := false }

def c10late : RedditPost :=
  { id := "q3", title := "Late but fresh", permalink := "/r/adops/comments/q3/c/",
    score := 90, created_utc := 100, stickied := false }

/-- Witness for C10 at a concrete listing: the scan of
`[fresh, old, late-but-fresh]` equals the scan of `[fresh]`, so the
in-window post after the old one is dropped. -/
theorem c10_time_window_prefix_cut_witness :
    ¬(c10fresh.created_utc < (0 : ℚ)) ∧ c10old.created_utc < (0 : ℚ) ∧
    ¬(c10late.created_utc < (0 : ℚ)) ∧
    scanPosts 0 25 "adops" [] [] [c10fresh, c10old, c10late] =
      scanPosts 0 25 "adops" [] [] [c10fresh] :=
  ⟨by decide, by decide, by decide,
   c10_time_window_prefix_cut 0 25 "adops" [] [] [c10fresh] c10old [c10late]
     (by decide) (by decide)⟩

/-- C9: a candidate id is appended to the persisted processed-id list exactly
when its hand-off succeeded (and the append itself did not fail): the ids
newly saved by the processing loop are precisely the ids of the successfully
handed-off selected candidates, in order.  In particular a candidate whose
hand-off raises is never persisted. -/
theorem c9_persist_only_after_handoff (inp : PipelineInput)
    (handoff : Candidate → Bool) (saveOk : String → Bool) :
    processSelection handoff saveOk (finalSelection inp) =
      (((finalSelection inp).filter handoff).filter
        (fun c => saveOk c.id)).map (fun c => c.id) := by
  have aux : ∀ (sel : List Candidate) (saved : List String),
      sel.foldl
        (fun saved c =>
          if handoff c then (if saveOk c.id then saved ++ [c.id] else saved) else saved)
        saved =
      saved ++ ((sel.filter handoff).filter (fun c => saveOk c.id)).map (fun c => c.id) := by
    intro sel
    induction sel with
    | nil => intro saved; simp
    | cons c cs ih =>
      intro saved
      simp only [List.foldl_cons, List.filter_cons]
      by_cases h1 : handoff c
      · by_cases h2 : saveOk c.id
        · simp [h1, h2, ih]
        · simp [h1, h2, ih]
      · simp [h1, ih]
  simpa using aux (finalSelection inp) []

/-- C7: the id of an `RSSEntry` is a pure deterministic function of the
entry's url and title alone (the hash of the stripped link when non-empty,
else of the stripped title): two raw entries agreeing on `link` and `title`
receive the same id, whatever their other fields and whatever feed they
come from, in this run or any other. -/
theorem c7_id_deterministic :
    (∀ (e1 e2 : RawFeedEntry) (f1 f2 : FeedMeta),
        e1.title = e2.title → e1.link = e2.link →
        (mkRSSEntry e1 f1).id = (mkRSSEntry e2 f2).id) ∧
    (∀ (e : RawFeedEntry) (f : FeedMeta),
        (mkRSSEntry e f).id =
          md5Hex16 (if pyStrip e.link = "" then pyStrip e.title else pyStrip e.link)) := by
  constructor
  · intro e1 e2 f1 f2 ht hl
    simp [mkRSSEntry, rssEntryGenerateId, ht, hl]
  · intro e f
    rfl

def c7entry1 : RawFeedEntry :=
  { title := " Ad spend shifts ", link := "https://feed.example/item1",
    summary := "first sighting", published := some 10 }

def c7entry2 : RawFeedEntry :=
  { title := " Ad spend shifts ", link := "https://feed.example/item1",
    summary := "other summary text", published := none }

def c7feed1 : FeedMeta := { name := "AdExchanger", pillar := "P1", topics := [] }

def c7feed2 : FeedMeta := { name := "Digiday", pillar := "P3", topics := ["ai"] }

/-- Witness for C7: two sightings of the same url and title, from different
feeds and with different summaries and dates, get identical ids. -/
theorem c7_id_deterministic_witness :
    c7entry1.title = c7entry2.title ∧ c7entry1.link = c7entry2.link ∧
    (mkRSSEntry c7entry1 c7feed1).id = (mkRSSEntry c7entry2 c7feed2).id :=
  ⟨rfl, rfl, c7_id_deterministic.1 c7entry1 c7entry2 c7feed1 c7feed2 rfl rfl⟩

/-- C1 (amended): a candidate coming from the Reddit adapter whose id is in
the `ProcessedState` set loaded at pipeline start never appears in the final
selected output.  (RSS candidates are not checked against that set; see the
counterexample.) -/
theorem c1_reddit_processed_excluded (inp : PipelineInput) (c : Candidate)
    (hc : c ∈ finalSelection inp) (hsrc : c.sourceRSS = false) :
    c.id ∉ inp.processedFile := by
  obtain ⟨hall, _⟩ := mem_finalSelection.1 hc
  rw [allCandidates] at hall
  rcases List.mem_append.1 hall with hmem | hmem
  · obtain ⟨r, hr, hviable⟩ := mem_redditCandidates.1 hmem
    obtain ⟨v, _, _, hid, _⟩ := viableOfRaw_eq_some hviable
    rw [hid]
    exact rawReddit_not_processed inp r hr
  · rw [rssCandidates_sourceRSS hmem] at hsrc
    cases hsrc

def c1wPost : RedditPost :=
  { id := "w1", title := "A fresh Reddit post", permalink := "/r/adops/comments/w1/a/",
    score := 30, created_utc := 100, stickied := false }

def c1wIn : PipelineInput :=
  { hot := fun s => if s = "adops" then [c1wPost] else []
    feeds := []
    classifyReddit := fun r =>
      if r.id = "w1" then
        some { is_good_candidate := true, relevance_score := some (mkRat 9 10), reason := none }
      else none
    classifyRss := fun _ => none
    processedFile := ["zzz"]
    redditCutoff := 0
    rssCutoff := 0 }

def c1wCand : Candidate :=
  { id := "w1", title := "A fresh Reddit post",
    url := "https://www.reddit.com/r/adops/comments/w1/a/", score := 30,
    subreddit := "adops", relevance_score := some (mkRat 9 10), reason := none,
    ranking_score := mkRat 9005 10000, sourceRSS := false }

/-- Witness for C1 (amended) at a concrete run: the accepted Reddit
candidate's id is not in the loaded processed set. -/
theorem c1_reddit_processed_excluded_witness :
    c1wCand ∈ finalSelection c1wIn ∧ c1wCand.sourceRSS = false ∧
    c1wCand.id ∉ c1wIn.processedFile :=
  ⟨by decide, rfl, c1_reddit_processed_excluded c1wIn c1wCand (by decide) rfl⟩

def c1xLink : String := "https://x.example/a"

def c1xIn : PipelineInput :=
  { hot := fun _ => []
    feeds := [{ name := "AdExchanger", priority := "high",
                entries := [{ title := "Great Ad Article", link := c1xLink,
                              summary := "", published := some 200 }] }]
    classifyReddit := fun _ => none
    classifyRss := fun e =>
      if e.url = c1xLink then
        some { is_good_candidate := true, relevance_score := some (mkRat 7 10), reason := none }
      else none
    processedFile := [md5Hex16 c1xLink]
    redditCutoff := 0
    rssCutoff := 0 }

/-- Counterexample to C1 as stated: an RSS candidate whose id is already in
the `ProcessedState` set loaded at pipeline start still appears in the final
selected output, because `main()` never checks RSS entries against the
processed set. -/
theorem c1_counterexample_rss_not_excluded :
    (finalSelection c1xIn).map (fun c => c.id) = [md5Hex16 c1xLink] ∧
    md5Hex16 c1xLink ∈ c1xIn.processedFile :=
  ⟨by decide, List.mem_singleton.2 rfl⟩

/-- C2 (amended): within one run, no two RSS candidates in the final output
share a normalized URL or a normalized lower-cased title (the dedup seen-sets
of `fetch_rss_candidates`), and no two Reddit candidates share a post id (the
in-memory processed set).  Deduplication does not span the two adapters; see
the counterexample. -/
theorem c2_within_run_dedup (inp : PipelineInput) :
    (((finalSelection inp).filter (fun c => c.sourceRSS)).Pairwise
      (fun a b => a.url ≠ b.url ∧ normTitle a.title ≠ normTitle b.title)) ∧
    (((finalSelection inp).filter (fun c => !c.sourceRSS)).Pairwise
      (fun a b => a.id ≠ b.id)) :=
  ⟨finalSelection_rss_pairwise inp, finalSelection_reddit_pairwise_id inp⟩

def c2xUrl : String := "https://www.reddit.com/r/adops/comments/p1/x/"

def c2xIn : PipelineInput :=
  { hot := fun s =>
      if s = "adops" then
        [{ id := "p1", title := "Shared Story", permalink := "/r/adops/comments/p1/x/",
           score := 30, created_utc := 100, stickied := false }]
      else []
    feeds := [{ name := "AdExchanger", priority := "high",
                entries := [{ title := "Shared Story", link := c2xUrl,
                              summary := "", published := some 200 }] }]
    classifyReddit := fun r =>
      if r.id = "p1" then
        some { is_good_candidate := true, relevance_score := some (mkRat 9 10), reason := none }
      else none
    classifyRss := fun e =>
      if e.url = c2xUrl then
        some { is_good_candidate := true, relevance_score := some (mkRat 8 10), reason := none }
      else none
    processedFile := []
    redditCutoff := 0
    rssCutoff := 0 }

/-- Counterexample to C2 as stated: the same URL (and the same title) is
returned once by the Reddit adapter and once by the RSS adapter in the same
run, both are classified, and both appear in the final output. -/
theorem c2_counterexample_cross_adapter_duplicate :
    (finalSelection c2xIn).map (fun c => c.url) = [c2xUrl, c2xUrl] ∧
    (finalSelection c2xIn).map (fun c => c.title) = ["Shared Story", "Shared Story"] ∧
    ¬ ((finalSelection c2xIn).Pairwise fun a b =>
        a.url ≠ b.url ∧ normTitle a.title ≠ normTitle b.title) :=
  ⟨by decide, by decide, by decide⟩

/-- C3: a candidate whose classification call fails — the call raises after
exhausting retries, returns malformed output (both modelled by the classify
outcome `none`), or returns a verdict without a usable score — never appears
in the final selected output: no Reddit output candidate has such a raw
candidate's id, and no RSS output candidate has such an entry's url. -/
theorem c3_failed_classification_excluded (inp : PipelineInput) :
    (∀ r ∈ rawRedditCandidates inp,
        (inp.classifyReddit r = none ∨
          ∃ v, inp.classifyReddit r = some v ∧ v.relevance_score = none) →
        ∀ c ∈ finalSelection inp, c.sourceRSS = false → c.id ≠ r.id) ∧
    (∀ e ∈ rssItems inp,
        (inp.classifyRss e = none ∨
          ∃ v, inp.classifyRss e = some v ∧ v.relevance_score = none) →
        ∀ c ∈ finalSelection inp, c.sourceRSS = true → c.url ≠ e.url) := by
  have hmin : MIN_PROCESSING_SCORE = (65 : ℚ)/100 := by
    rw [MIN_PROCESSING_SCORE, mkRat_eq_div]; norm_num
  have h5 : (mkRat 5 100 : ℚ) = 5/100 := by rw [mkRat_eq_div]; norm_num
  constructor
  · intro r hr hfail c hc hsrc heq
    obtain ⟨hall, hthr⟩ := mem_finalSelection.1 hc
    rw [allCandidates] at hall
    rcases List.mem_append.1 hall with hmem | hmem
    · obtain ⟨r', hr', hviable⟩ := mem_redditCandidates.1 hmem
      obtain ⟨v, hcl, hgood, hid, _, _, _, _, hrel, _, _, hrank⟩ :=
        viableOfRaw_eq_some hviable
      have hrr : r' = r :=
        eq_of_pairwise_key (fun x : RawCandidate => x.id)
          (rawReddit_pairwise inp) hr' hr (by show r'.id = r.id; rw [← hid, heq])
      subst hrr
      rcases hfail with hnone | ⟨v', hsome, hvrel⟩
      · rw [hnone] at hcl; cases hcl
      · rw [hsome] at hcl
        injection hcl with hvv
        subst hvv
        rw [hvrel] at hrank
        rw [qadd_eq, qmul_eq, qdiv_eq, h5] at hrank
        simp only [Option.getD_none, zero_add] at hrank
        rw [hmin] at hthr
        have hP : min (1:ℚ) ((r'.score : ℚ)/3000) ≤ 1 := min_le_left _ _
        have hprod : min (1:ℚ) ((r'.score : ℚ)/3000) * (5/100) ≤ 5/100 :=
          mul_le_of_le_one_left (by norm_num) hP
        have hle : c.ranking_score ≤ min (1:ℚ) ((r'.score : ℚ)/3000) * (5/100) := by
          rw [hrank]; exact min_le_right _ _
        linarith
    · rw [rssCandidates_sourceRSS hmem] at hsrc
      cases hsrc
  · intro e he hfail c hc hsrc heq
    obtain ⟨hall, hthr⟩ := mem_finalSelection.1 hc
    rw [allCandidates] at hall
    rcases List.mem_append.1 hall with hmem | hmem
    · rw [redditCandidates_sourceRSS hmem] at hsrc
      cases hsrc
    · obtain ⟨e', he', hcand⟩ := mem_rssCandidates.1 hmem
      obtain ⟨v, hcl, hgood, _, _, hurl, _, _, _, _, _, hrank⟩ :=
        rssCandOfItem_eq_some hcand
      have hee : e' = e :=
        eq_of_pairwise_key (fun x : RssItem => x.url)
          ((rssItems_pairwise inp).imp (fun h => h.1)) he' he (by show e'.url = e.url; rw [← hurl, heq])
      subst hee
      rcases hfail with hnone | ⟨v', hsome, hvrel⟩
      · rw [hnone] at hcl; cases hcl
      · rw [hsome] at hcl
        injection hcl with hvv
        subst hvv
        rw [hvrel] at hrank
        simp only [Option.getD_none] at hrank
        rw [hmin] at hthr
        rw [hrank] at hthr
        norm_num at hthr

def c3wIn : PipelineInput :=
  { hot := fun s =>
      if s = "adops" then
        [{ id := "p31", title := "Failing classification", permalink := "/r/adops/comments/p31/a/",
           score := 40, created_utc := 100, stickied := false },
         { id := "p32", title := "Accepted post", permalink := "/r/adops/comments/p32/b/",
           score := 30, created_utc := 100, stickied := false }]
      else []
    feeds := []
    classifyReddit := fun r =>
      if r.id = "p32" then
        some { is_good_candidate := true, relevance_score := some (mkRat 9 10), reason := none }
      else none
    classifyRss := fun _ => none
    processedFile := []
    redditCutoff := 0
    rssCutoff := 0 }

def c3wRaw : RawCandidate :=
  { id := "p31", title := "Failing classification",
    url := "https://www.reddit.com/r/adops/comments/p31/a/", score := 40,
    subreddit := "adops" }

def c3wCand : Candidate :=
  { id := "p32", title := "Accepted post",
    url := "https://www.reddit.com/r/adops/comments/p32/b/", score := 30,
    subreddit := "adops", relevance_score := some (mkRat 9 10), reason := none,
    ranking_score := mkRat 9005 10000, sourceRSS := false }

/-- Witness for C3 at a concrete run: the raw candidate whose classification
call raised is fetched, its call outcome is `none`, and the single output
candidate is not it. -/
theorem c3_failed_classification_excluded_witness :
    c3wRaw ∈ rawRedditCandidates c3wIn ∧ c3wIn.classifyReddit c3wRaw = none ∧
    c3wCand ∈ finalSelection c3wIn ∧ c3wCand.id ≠ c3wRaw.id :=
  ⟨by decide, by decide, by decide,
   (c3_failed_classification_excluded c3wIn).1 c3wRaw (by decide) (Or.inl (by decide))
     c3wCand (by decide) rfl⟩

/-- C4 (amended): for every Reddit candidate in the final output,
`ranking_score = min(1, relevance_score + min(1, score/3000) * 0.05)` — so it
is capped at 1 however large the popularity score is — and it lies in [0,1].
For every RSS candidate in the output the popularity bonus is zero but the
score is the classifier relevance verbatim, with no clamping at all (see the
counterexample for a value above 1). -/
theorem c4_ranking_formula_and_bound (inp : PipelineInput) (c : Candidate)
    (hc : c ∈ finalSelection inp) :
    (c.sourceRSS = false →
      c.ranking_score =
        min 1 (c.relevance_score.getD 0 + min 1 ((c.score : ℚ)/3000) * (5/100)) ∧
      0 ≤ c.ranking_score ∧ c.ranking_score ≤ 1) ∧
    (c.sourceRSS = true → c.relevance_score = some c.ranking_score) := by
  obtain ⟨hall, hthr⟩ := mem_finalSelection.1 hc
  have hmin : MIN_PROCESSING_SCORE = (65 : ℚ)/100 := by
    rw [MIN_PROCESSING_SCORE, mkRat_eq_div]; norm_num
  have h5 : (mkRat 5 100 : ℚ) = 5/100 := by rw [mkRat_eq_div]; norm_num
  rw [allCandidates] at hall
  rcases List.mem_append.1 hall with hmem | hmem
  · obtain ⟨r, hr, hviable⟩ := mem_redditCandidates.1 hmem
    obtain ⟨v, hcl, hgood, hid, htitle, hurl, hscore, hsub, hrel, hreason, hsrc, hrank⟩ :=
      viableOfRaw_eq_some hviable
    constructor
    · intro _
      refine ⟨?_, ?_, ?_⟩
      · rw [hrank, hrel, hscore, qadd_eq, qmul_eq, qdiv_eq, h5]
      · rw [hmin] at hthr; linarith
      · rw [hrank]; exact min_le_left _ _
    · intro hsrc'
      rw [hsrc] at hsrc'; cases hsrc'
  · obtain ⟨e, he, hcand⟩ := mem_rssCandidates.1 hmem
    obtain ⟨v, hcl, hgood, hid, htitle, hurl, hscore, hsub, hrel, hreason, hsrc, hrank⟩ :=
      rssCandOfItem_eq_some hcand
    constructor
    · intro hsrc'
      rw [hsrc] at hsrc'; cases hsrc'
    · intro _
      rw [hrel, hrank]

def c4wIn : PipelineInput :=
  { hot := fun s =>
      if s = "adops" then
        [{ id := "w4", title := "Scored post", permalink := "/r/adops/comments/w4/a/",
           score := 30, created_utc := 100, stickied := false }]
      else []
    feeds := []
    classifyReddit := fun r =>
      if r.id = "w4" then
        some { is_good_candidate := true, relevance_score := some (mkRat 9 10), reason := none }
      else none
    classifyRss := fun _ => none
    processedFile := []
    redditCutoff := 0
    rssCutoff := 0 }

def c4wCand : Candidate :=
  { id := "w4", title := "Scored post",
    url := "https://www.reddit.com/r/adops/comments/w4/a/", score := 30,
    subreddit := "adops", relevance_score := some (mkRat 9 10), reason := none,
    ranking_score := mkRat 9005 10000, sourceRSS := false }

/-- Witness for C4 (amended) at a concrete run: the output Reddit candidate's
ranking score satisfies the clamped formula and lies in [0,1]. -/
theorem c4_ranking_formula_and_bound_witness :
    c4wCand ∈ finalSelection c4wIn ∧ c4wCand.sourceRSS = false ∧
    0 ≤ c4wCand.ranking_score ∧ c4wCand.ranking_score ≤ 1 ∧
    c4wCand.ranking_score =
      min 1 (c4wCand.relevance_score.getD 0 + min 1 ((c4wCand.score : ℚ)/3000) * (5/100)) := by
  have h := (c4_ranking_formula_and_bound c4wIn c4wCand (by decide)).1 rfl
  exact ⟨by decide, rfl, h.2.1, h.2.2, h.1⟩

def c4xIn : PipelineInput :=
  { hot := fun _ => []
    feeds := [{ name := "AdExchanger", priority := "high",
                entries := [{ title := "Overconfident classifier", link := "https://x.example/b",
                              summary := "", published := some 200 }] }]
    classifyReddit := fun _ => none
    classifyRss := fun e =>
      if e.url = "https://x.example/b" then
        some { is_good_candidate := true, relevance_score := some (mkRat 3 2), reason := none }
      else none
    processedFile := []
    redditCutoff := 0
    rssCutoff := 0 }

/-- Counterexample to C4 as stated: when the classifier returns a relevance
score of 1.5 for an RSS entry, the output candidate's ranking score is 1.5 —
not `clamp(relevance + bonus, 0, 1)`, and not in [0,1]. -/
theorem c4_counterexample_rss_score_unclamped :
    (finalSelection c4xIn).map (fun c => c.ranking_score) = [mkRat 3 2] ∧
    ¬ ((mkRat 3 2 : ℚ) ≤ 1) :=
  ⟨by decide, by decide⟩

/-- C5 (amended): the final selection keeps exactly the candidates with
`ranking_score >= MIN_PROCESSING_SCORE` (it is a permutation of the filtered
candidate list) and is sorted descending by `ranking_score`, so adjacent
scores are non-increasing.  Ties keep the pre-sort order — all Reddit
candidates before all RSS candidates, each in fetch order — not the
most-recent-`published_at` / source-priority order (see the
counterexample). -/
theorem c5_threshold_filter_and_descending_sort (inp : PipelineInput) :
    (finalSelection inp).Perm
      ((allCandidates inp).filter
        (fun c => decide (MIN_PROCESSING_SCORE ≤ c.ranking_score))) ∧
    (finalSelection inp).Pairwise (fun a b => b.ranking_score ≤ a.ranking_score) :=
  ⟨finalSelection_perm inp, finalSelection_sorted inp⟩

def c5xIn : PipelineInput :=
  { hot := fun s =>
      if s = "adops" then
        [{ id := "p5", title := "Older tied story", permalink := "/r/adops/comments/p5/a/",
           score := 30, created_utc := 100, stickied := false }]
      else []
    feeds := [{ name := "AdExchanger", priority := "high",
                entries := [{ title := "Newer tied story", link := "https://x.example/c",
                              summary := "", published := some 200 }] }]
    classifyReddit := fun r =>
      if r.id = "p5" then
        some { is_good_candidate := true, relevance_score := some (mkRat 6995 10000), reason := none }
      else none
    classifyRss := fun e =>
      if e.url = "https://x.example/c" then
        some { is_good_candidate := true, relevance_score := some (mkRat 7 10), reason := none }
      else none
    processedFile := []
    redditCutoff := 0
    rssCutoff := 0 }

/-- Counterexample to C5's tie-breaking as stated: two output candidates are
tied at ranking 0.7; the Reddit one was created at time 100 and the RSS one
published at time 200, yet the output keeps the Reddit candidate first (the
sort is plain stable sort on the score key), so ties are not broken by
most-recent `published_at` (nor by any source-priority order — the output
records do not even carry a publication time). -/
theorem c5_counterexample_no_tie_break :
    (finalSelection c5xIn).map (fun c => (c.ranking_score, c.sourceRSS)) =
      [(mkRat 7 10, false), (mkRat 7 10, true)] ∧
    ¬ ((finalSelection c5xIn).Pairwise fun a b =>
        b.ranking_score < a.ranking_score ∨
          (a.ranking_score = b.ranking_score ∧
            (if b.sourceRSS then (200 : ℚ) else 100) ≤
              (if a.sourceRSS then (200 : ℚ) else 100))) :=
  ⟨by decide, by decide⟩

/-- C6 (amended): the relevance score of an accepted candidate is carried
into the output verbatim — for a Reddit candidate it equals exactly the
score the classifier returned (even when that score is outside [0,1]; no
clamping is applied anywhere), and for an RSS candidate it is the returned
score with only the missing-key default of 0 applied. -/
theorem c6_relevance_score_carried_verbatim (inp : PipelineInput) :
    (∀ r ∈ rawRedditCandidates inp, ∀ v, inp.classifyReddit r = some v →
        ∀ c ∈ finalSelection inp, c.sourceRSS = false → c.id = r.id →
          c.relevance_score = v.relevance_score) ∧
    (∀ e ∈ rssItems inp, ∀ v, inp.classifyRss e = some v →
        ∀ c ∈ finalSelection inp, c.sourceRSS = true → c.url = e.url →
          c.relevance_score = some (v.relevance_score.getD 0)) := by
  constructor
  · intro r hr v hv c hc hsrc heq
    obtain ⟨hall, _⟩ := mem_finalSelection.1 hc
    rw [allCandidates] at hall
    rcases List.mem_append.1 hall with hmem | hmem
    · obtain ⟨r', hr', hviable⟩ := mem_redditCandidates.1 hmem
      obtain ⟨v', hcl, _, hid, _, _, _, _, hrel, _⟩ := viableOfRaw_eq_some hviable
      have hrr : r' = r :=
        eq_of_pairwise_key (fun x : RawCandidate => x.id)
          (rawReddit_pairwise inp) hr' hr (by show r'.id = r.id; rw [← hid, heq])
      subst hrr
      rw [hv] at hcl
      injection hcl with hvv
      rw [hrel, hvv]
    · rw [rssCandidates_sourceRSS hmem] at hsrc
      cases hsrc
  · intro e he v hv c hc hsrc heq
    obtain ⟨hall, _⟩ := mem_finalSelection.1 hc
    rw [allCandidates] at hall
    rcases List.mem_append.1 hall with hmem | hmem
    · rw [redditCandidates_sourceRSS hmem] at hsrc
      cases hsrc
    · obtain ⟨e', he', hcand⟩ := mem_rssCandidates.1 hmem
      obtain ⟨v', hcl, _, _, _, hurl, _, _, hrel, _⟩ := rssCandOfItem_eq_some hcand
      have hee : e' = e :=
        eq_of_pairwise_key (fun x : RssItem => x.url)
          ((rssItems_pairwise inp).imp (fun h => h.1)) he' he
          (by show e'.url = e.url; rw [← hurl, heq])
      subst hee
      rw [hv] at hcl
      injection hcl with hvv
      rw [hrel, hvv]

def c6wIn : PipelineInput :=
  { hot := fun s =>
      if s = "adops" then
        [{ id := "w6", title := "Overscored post", permalink := "/r/adops/comments/w6/a/",
           score := 30, created_utc := 100, stickied := false }]
      else []
    feeds := []
    classifyReddit := fun r =>
      if r.id = "w6" then
        some { is_good_candidate := true, relevance_score := some (mkRat 3 2), reason := none }
      else none
    classifyRss := fun _ => none
    processedFile := []
    redditCutoff := 0
    rssCutoff := 0 }

def c6wRaw : RawCandidate :=
  { id := "w6", title := "Overscored post",
    url := "https://www.reddit.com/r/adops/comments/w6/a/", score := 30,
    subreddit := "adops" }

def c6wVerdict : Verdict :=
  { is_good_candidate := true, relevance_score := some (mkRat 3 2), reason := none }

def c6wCand : Candidate :=
  { id := "w6", title := "Overscored post",
    url := "https://www.reddit.com/r/adops/comments/w6/a/", score := 30,
    subreddit := "adops", relevance_score := some (mkRat 3 2), reason := none,
    ranking_score := 1, sourceRSS := false }

/-- Witness for C6 (amended) at a concrete run: the classifier returned the
score 1.5 and the output candidate carries exactly that score. -/
theorem c6_relevance_score_carried_verbatim_witness :
    c6wRaw ∈ rawRedditCandidates c6wIn ∧
    c6wIn.classifyReddit c6wRaw = some c6wVerdict ∧
    c6wCand ∈ finalSelection c6wIn ∧
    c6wCand.relevance_score = some (mkRat 3 2) :=
  ⟨by decide, by decide, by decide,
   ((c6_relevance_score_carried_verbatim c6wIn).1 c6wRaw (by decide) c6wVerdict
      (by decide) c6wCand (by decide) rfl rfl).trans rfl⟩

def c6xIn : PipelineInput :=
  { hot := fun s =>
      if s = "adops" then
        [{ id := "x6", title := "Overscored post two", permalink := "/r/adops/comments/x6/a/",
           score := 30, created_utc := 100, stickied := false }]
      else []
    feeds := []
    classifyReddit := fun r =>
      if r.id = "x6" then
        some { is_good_candidate := true, relevance_score := some (mkRat 3 2), reason := none }
      else none
    classifyRss := fun _ => none
    processedFile := []
    redditCutoff := 0
    rssCutoff := 0 }

/-- Counterexample to C6 as stated: the classifier returned 1.5 and the
accepted candidate carries relevance 1.5 in the output — the model's score
is not clamped into [0,1]. -/
theorem c6_counterexample_relevance_unclamped :
    (finalSelection c6xIn).map (fun c => c.relevance_score) = [some (mkRat 3 2)] ∧
    ¬ ((mkRat 3 2 : ℚ) ≤ 1) :=
  ⟨by decide, by decide⟩

/-- C8: json-mode extraction is robust and fail-safe.  In order: (tag) when
the `<json>` wrapper regex matches, the group is parsed and returned;
(fence) when the fenced-code-block regex matches the working string, its
group is parsed and returned; (fallback) otherwise the substring between the
first `\x7b` and the last `\x7d` is parsed and returned; (total) when every
parse attempt fails, `extract_json` returns the working string as a plain
`raw` value — it never raises; (call) the retry loop returns `ok` of the
extraction result for the first attempt whose API call did not raise, so a
parse failure never becomes an exception that aborts the pipeline; and the
Anthropic json route returns the parsed value or the explicit sentinel dict
`\x7b"error": "json_parse_failed"\x7d`, also without raising. -/
theorem c8_json_extraction_fail_safe :
    (∀ (loads : String → Option Json) (s0 : String) (g : List Char) (j : Json),
        searchTag (pyStripL s0.data) = some g →
        searchFencedL g = none →
        (g.head? = some '\x7b' ∨ g.head? = some '[') →
        loads (String.mk g) = some j →
        extract_json loads s0 = .json j) ∧
    (∀ (loads : String → Option Json) (s0 : String) (g : List Char) (j : Json),
        searchTag (pyStripL s0.data) = none →
        searchFencedL (pyStripL s0.data) = some g →
        (g.head? = some '\x7b' ∨ g.head? = some '[') →
        loads (String.mk g) = some j →
        extract_json loads s0 = .json j) ∧
    (∀ (loads : String → Option Json) (s0 : String) (st en : Nat) (j : Json),
        searchTag (pyStripL s0.data) = none →
        searchFencedL (pyStripL s0.data) = none →
        ¬((pyStripL s0.data).head? = some '\x7b' ∨ (pyStripL s0.data).head? = some '[') →
        List.findIdx? (fun x => x = '\x7b') (pyStripL s0.data) = some st →
        lastIdxOf (pyStripL s0.data) '\x7d' = some en →
        st < en →
        loads (String.mk (((pyStripL s0.data).drop st).take (en + 1 - st))) = some j →
        extract_json loads s0 = .json j) ∧
    (∀ (loads : String → Option Json) (s0 : String),
        (∀ u, loads u = none) → (extract_json loads s0).isRaw = true) ∧
    (∀ (loads : String → Option Json) (pre rest : List (Option String)) (content : String),
        (∀ x ∈ pre, x = none) →
        callAttempts loads (pre ++ some content :: rest) =
          .ok (extract_json loads content)) ∧
    (∀ (loads lenient : String → Option Json) (content : String),
        searchTag content.data = none →
        anthropic_json_extract loads lenient content = errJson) ∧
    (∀ (loads lenient : String → Option Json) (content : String) (g : List Char),
        searchTag content.data = some g →
        loads (String.mk (pyStripL g)) = none →
        lenient (String.mk (pyStripL g)) = none →
        anthropic_json_extract loads lenient content = errJson) ∧
    (∀ (loads lenient : String → Option Json) (content : String) (g : List Char) (j : Json),
        searchTag content.data = some g →
        loads (String.mk (pyStripL g)) = some j →
        anthropic_json_extract loads lenient content = j) := by
  refine ⟨?_, ?_, ?_, ?_, ?_, ?_, ?_, ?_⟩
  · intro loads s0 g j h1 h2 h3 h4
    unfold extract_json strippedPayload afterFence afterTag
    rw [h1]
    simp only [Option.getD_some]
    rw [h2]
    simp only [Option.getD_none]
    rw [if_pos h3, h4]
  · intro loads s0 g j h1 h2 h3 h4
    unfold extract_json strippedPayload afterFence afterTag
    rw [h1]
    simp only [Option.getD_none]
    rw [h2]
    simp only [Option.getD_some]
    rw [if_pos h3, h4]
  · intro loads s0 st en j h1 h2 h3 hfi hla hlt h4
    unfold extract_json strippedPayload afterFence afterTag
    rw [h1]
    simp only [Option.getD_none]
    rw [h2]
    simp only [Option.getD_none]
    rw [if_neg h3]
    unfold jsonFallback
    rw [hfi, hla]
    dsimp only
    rw [if_pos hlt, h4]
  · intro loads s0 hnone
    unfold extract_json
    have hdir : (if (strippedPayload s0).head? = some '\x7b' ∨ (strippedPayload s0).head? = some '['
        then loads (String.mk (strippedPayload s0)) else none) = none := by
      split
      · exact hnone _
      · rfl
    rw [hdir]
    show (jsonFallback loads (strippedPayload s0)).isRaw = true
    unfold jsonFallback
    cases hfi : List.findIdx? (fun x => x = '\x7b') (strippedPayload s0) with
    | none => rfl
    | some st =>
      cases hla : lastIdxOf (strippedPayload s0) '\x7d' with
      | none => rfl
      | some en =>
        dsimp only
        by_cases hlt : st < en
        · rw [if_pos hlt, hnone]
          rfl
        · rw [if_neg hlt]
          rfl
  · intro loads pre rest content hpre
    induction pre with
    | nil => rfl
    | cons x pre ih =>
      have hx : x = none := hpre x (List.mem_cons_self ..)
      subst hx
      simp only [List.cons_append, callAttempts]
      exact ih fun y hy => hpre y (List.mem_cons_of_mem _ hy)
  · intro loads lenient content h1
    unfold anthropic_json_extract
    rw [h1]
  · intro loads lenient content g h1 h2 h3
    unfold anthropic_json_extract
    rw [h1]
    dsimp only
    rw [h2, h3]
  · intro loads lenient content g j h1 h2
    unfold anthropic_json_extract
    rw [h1]
    dsimp only
    rw [h2]

/-- Witness for C8 at concrete inputs: a tag-wrapped payload, a fenced
payload, a prose-embedded payload, a total parse failure, a retry sequence
whose first attempt raised, and the Anthropic error sentinel. -/
theorem c8_json_extraction_fail_safe_witness :
    searchTag (pyStripL ("<json>\x7bok\x7d</json>" : String).data) =
      some ("\x7bok\x7d" : String).data ∧
    extract_json (fun _ => some Json.null) "<json>\x7bok\x7d</json>" = .json Json.null ∧
    extract_json (fun _ => some Json.null) "```json \x7bok\x7d ```" = .json Json.null ∧
    extract_json (fun _ => some Json.null) "noise \x7bok\x7d tail" = .json Json.null ∧
    (extract_json (fun _ => none) "not json at all").isRaw = true ∧
    callAttempts (fun _ => none) [none, some "<json>\x7bok\x7d</json>"] =
      .ok (extract_json (fun _ => none) "<json>\x7bok\x7d</json>") ∧
    anthropic_json_extract (fun _ => none) (fun _ => none) "<json>bad</json>" = errJson :=
  ⟨by decide,
   c8_json_extraction_fail_safe.1 _ _ ("\x7bok\x7d" : String).data Json.null
     (by decide) (by decide) (Or.inl (by decide)) rfl,
   c8_json_extraction_fail_safe.2.1 _ _ ("\x7bok\x7d" : String).data Json.null
     (by decide) (by decide) (Or.inl (by decide)) rfl,
   c8_json_extraction_fail_safe.2.2.1 _ _ 6 9 Json.null
     (by decide) (by decide) (by decide) (by decide) (by decide) (by decide) rfl,
   c8_json_extraction_fail_safe.2.2.2.1 _ _ (fun _ => rfl),
   c8_json_extraction_fail_safe.2.2.2.2.1 _ [none] [] _ (by simp),
   c8_json_extraction_fail_safe.2.2.2.2.2.2.1 _ _ _ ("bad" : String).data
     (by decide) rfl rfl⟩
